import Mathlib

/-!
# FORGe call-handler core: shallow embedding

Embedding of `src/core/natural_language_understanding.py`
(`ConversationalNLU.process_input`, `_check_claim_completion`, the
`to_review` keyword classifiers), the loop-stop logic of
`src/pipeline.py` (`handle_speech_callback`), and the playback-flag
discipline of `src/core/text_to_speech.py` (`play_audio`,
`is_audio_playing`).

Python JSON values that can land in the claim dictionary are modelled by
`JVal`; Python truthiness by `truthy`.  The external understanding
service (one OpenAI round trip) is modelled by a `ServiceOutcome`
parameter: either `failure` (timeout, malformed JSON, an unparsable
frustration score — any exception raised before the state-name lookup)
or `success r` with the parsed, default-filled fields.  A `success`
payload whose `conversation_state` is not a member name of
`ConversationState` reproduces the `KeyError` of
`ConversationState[...]`: it is caught by the blanket `except`, after
the frustration-score and claim-data writes have already happened.
-/

/-- JSON-ish values as they appear in the parsed service payload. -/
inductive JVal where
  | jnull : JVal
  | jstr (s : String) : JVal
  | jnum (q : ℚ) : JVal
  | jbool (b : Bool) : JVal
deriving DecidableEq, Repr

open JVal

/-- Python truthiness restricted to the payload values. -/
def truthy : JVal → Bool
  | jnull => false
  | jstr s => if s = "" then false else true
  | jnum q => if q = 0 then false else true
  | jbool b => b

/-- The shared guard `value and value != "null"` used both by the merge
loop of `process_input` and by `_check_claim_completion`. -/
def nonNullTruthy (v : JVal) : Bool :=
  truthy v && !(decide (v = jstr "null"))

/-- The eight members of the `ConversationState` enum. -/
inductive ConversationState where
  | GREETING
  | GATHERING_POLICY_INFO
  | GATHERING_INCIDENT_DETAILS
  | GATHERING_DAMAGE_INFO
  | CONFIRMING
  | TO_REVIEW
  | COMPLETE
  | EMERGENCY_TRANSFER
deriving DecidableEq, Repr

/-- `ConversationState[name]` in `process_input` indexes by member name;
`none` models the `KeyError` on an unrecognized name. -/
def stateOfName : String → Option ConversationState
  | "GREETING" => some ConversationState.GREETING
  | "GATHERING_POLICY_INFO" => some ConversationState.GATHERING_POLICY_INFO
  | "GATHERING_INCIDENT_DETAILS" => some ConversationState.GATHERING_INCIDENT_DETAILS
  | "GATHERING_DAMAGE_INFO" => some ConversationState.GATHERING_DAMAGE_INFO
  | "CONFIRMING" => some ConversationState.CONFIRMING
  | "TO_REVIEW" => some ConversationState.TO_REVIEW
  | "COMPLETE" => some ConversationState.COMPLETE
  | "EMERGENCY_TRANSFER" => some ConversationState.EMERGENCY_TRANSFER
  | _ => none

/-- The seven-key claim dictionary (`self.claim_data`). -/
structure ClaimData where
  policyId : JVal
  customerName : JVal
  incidentType : JVal
  description : JVal
  location : JVal
  estimatedDamage : JVal
  incidentDate : JVal
deriving DecidableEq, Repr

/-- All-`None` claim dictionary built in `__init__` and `reset`. -/
def emptyClaim : ClaimData :=
  { policyId := jnull, customerName := jnull, incidentType := jnull
    description := jnull, location := jnull, estimatedDamage := jnull
    incidentDate := jnull }

/-- Names of the claim fields, for the `key in self.claim_data` test. -/
inductive ClaimField where
  | policyId | customerName | incidentType | description | location
  | estimatedDamage | incidentDate
deriving DecidableEq, Repr

/-- Dictionary lookup by field. -/
def getF : ClaimField → ClaimData → JVal
  | ClaimField.policyId, cd => cd.policyId
  | ClaimField.customerName, cd => cd.customerName
  | ClaimField.incidentType, cd => cd.incidentType
  | ClaimField.description, cd => cd.description
  | ClaimField.location, cd => cd.location
  | ClaimField.estimatedDamage, cd => cd.estimatedDamage
  | ClaimField.incidentDate, cd => cd.incidentDate

/-- Dictionary write by field. -/
def setF : ClaimField → JVal → ClaimData → ClaimData
  | ClaimField.policyId, v, cd => { cd with policyId := v }
  | ClaimField.customerName, v, cd => { cd with customerName := v }
  | ClaimField.incidentType, v, cd => { cd with incidentType := v }
  | ClaimField.description, v, cd => { cd with description := v }
  | ClaimField.location, v, cd => { cd with location := v }
  | ClaimField.estimatedDamage, v, cd => { cd with estimatedDamage := v }
  | ClaimField.incidentDate, v, cd => { cd with incidentDate := v }

/-- `key in self.claim_data`: the string keys of the claim dictionary. -/
def fieldOfKey : String → Option ClaimField
  | "policyId" => some ClaimField.policyId
  | "customerName" => some ClaimField.customerName
  | "incidentType" => some ClaimField.incidentType
  | "description" => some ClaimField.description
  | "location" => some ClaimField.location
  | "estimatedDamage" => some ClaimField.estimatedDamage
  | "incidentDate" => some ClaimField.incidentDate
  | _ => none

/-- Rendering of a rational where Python interpolates a float. -/
def ratStr (q : ℚ) : String :=
  if q.den = 1 then toString q.num else toString q.num ++ "/" ++ toString q.den

/-- Rendering of a payload value inside an f-string. -/
def jvalStr : JVal → String
  | jnull => "None"
  | jstr s => s
  | jnum q => ratStr q
  | jbool b => if b then "True" else "False"

/-- The tag prepended to the description field:
`f"[Frustration Score: {self.frustration_score}/10] {value}"`. -/
def descTag (fs : ℚ) (v : JVal) : String :=
  "[Frustration Score: " ++ ratStr fs ++ "/10] " ++ jvalStr v

/-- One iteration of the merge loop
`for key, value in extracted_claim.items(): ...` (lines 165-170). -/
def mergeEntry (fs : ℚ) (cd : ClaimData) (kv : String × JVal) : ClaimData :=
  match fieldOfKey kv.1 with
  | none => cd
  | some f =>
    if nonNullTruthy kv.2 then
      if f = ClaimField.description then setF f (jstr (descTag fs kv.2)) cd
      else setF f kv.2 cd
    else cd

/-- `_check_claim_completion`: the five required fields must be truthy
and not the literal string `"null"`. -/
def check_claim_completion (cd : ClaimData) : Bool :=
  [cd.policyId, cd.customerName, cd.incidentType, cd.description,
   cd.location].all nonNullTruthy

/-- Mutable session state held on the `ConversationalNLU` instance. -/
structure Session where
  state : ConversationState
  claim : ClaimData
  frustration : ℚ
  history : List String
deriving DecidableEq, Repr

/-- The dictionary returned by `process_input`. -/
structure NLUOutput where
  response : String
  should_transfer : Bool
  transfer_reason : String
  frustration_score : ℚ
  claim_data : ClaimData
  state : ConversationState
  is_complete : Bool
deriving DecidableEq, Repr

/-- Parsed, default-filled understanding-service payload. -/
structure LLMResult where
  response : String
  emergency_detected : Bool
  emergency_reason : String
  frustration_score : ℚ
  claim_data : List (String × JVal)
  conversation_state : String
deriving DecidableEq, Repr

/-- One call to the external service, as seen by `process_input`. -/
inductive ServiceOutcome where
  | failure : ServiceOutcome
  | success (r : LLMResult) : ServiceOutcome
deriving DecidableEq, Repr

def addHistory (s : Session) (line : String) : Session :=
  { s with history := s.history ++ [line] }

/-- ASCII lowering of one character, for `str.lower()`. -/
def lowerChar (c : Char) : Char :=
  if 'A' ≤ c && c ≤ 'Z' then Char.ofNat (c.toNat + 32) else c

/-- Whitespace stripped by `str.strip()`. -/
def isStripChar (c : Char) : Bool :=
  c = ' ' || c = '\t' || c = '\n' || c = '\r'

/-- `user_text.lower().strip()` (line 85). -/
def pyLowerStrip (t : String) : String :=
  ⟨(((t.toList.map lowerChar).dropWhile isStripChar).reverse.dropWhile
      isStripChar).reverse⟩

/-- Keyword matching: word characters for the `\b` boundary of
`re.search`. -/
def isWordChar (c : Char) : Bool := c.isAlphanum || c = '_'

/-- Try to read the literal `p` at the front of `s`. -/
def litAt : List Char → List Char → Option (List Char)
  | [], rest => some rest
  | _ :: _, [] => none
  | p :: ps, c :: cs => if p = c then litAt ps cs else none

/-- Does the literal `p` occur at the current position with a word
boundary after it? -/
def patHitsHere (p : List Char) (s : List Char) : Bool :=
  match litAt p s with
  | some [] => true
  | some (c :: _) => !isWordChar c
  | none => false

/-- `re.search` of an alternation of literals, each wrapped in `\b...\b`:
scan every position, tracking whether the previous character is a word
character. -/
def wordMatch (pats : List (List Char)) : Bool → List Char → Bool
  | _, [] => false
  | prevW, c :: cs =>
      (!prevW && pats.any fun p => patHitsHere p (c :: cs))
        || wordMatch pats (isWordChar c) cs

/-- Affirmative alternation of the local `to_review` classifier. -/
def affirmPats : List String :=
  ["yes", "yep", "yeah", "y", "correct", "confirm", "that\x27s correct",
   "all set", "looks good", "right", "thanks", "thank you", "bye", "goodbye"]

/-- Negative alternation of the local `to_review` classifier. -/
def negPats : List String :=
  ["no", "not", "change", "incorrect", "wrong", "edit", "update", "needs", "nope"]

/-- `is_affirmative` from `process_input` (line 87). -/
def is_affirmative (s : String) : Bool :=
  wordMatch (affirmPats.map String.toList) false s.toList

/-- `is_negative` from `process_input` (line 90). -/
def is_negative (s : String) : Bool :=
  wordMatch (negPats.map String.toList) false s.toList

/-- Fixed confirmation-and-handoff message of the affirmative branch. -/
def confirmDoneMsg : String :=
  "Thank you! Your claim has been created successfully. Now you have to speak to a human operator to finish the report. I can either put you in line to speak with an agent now, the estimated waiting time is 5 minutes, or you can ask to be called back later. Which would you prefer?"

/-- Fixed message of the negative branch. -/
def changeMsg : String :=
  "I understand you\x27d like to make changes. Which detail would you like to update?"

/-- Fixed re-confirmation prompt of the unclear branch. -/
def reconfirmMsg : String :=
  "Could you please confirm: is the information I summarized correct? Say \x27yes\x27 to confirm or tell me what to change."

/-- Fixed apology of the `except` handler. -/
def apologyMsg : String :=
  "I apologize, I\x27m having technical difficulties. Let me connect you with an agent."

/-- Fixed urgent-handoff message of the emergency branch. -/
def emergencyMsg : String :=
  "I understand this is urgent. I\x27m connecting you with the emergency team who can better assist you. Please hold in line!"

/-- Fixed de-escalation message of the high-frustration branch. -/
def frustrationMsg : String :=
  "I can understand that there is a bit of frustration. Let me connect you with a specialist who can better help you right away. Please hold."

/-- The local `to_review` confirmation flow (lines 84-131); never
consults the service outcome. -/
def reviewTurn (s : Session) (lc : String) : Session × NLUOutput :=
  if is_affirmative lc then
    let s2 := { addHistory s "ASSISTANT: Claim confirmed by caller." with
                state := ConversationState.COMPLETE }
    (s2,
     { response := confirmDoneMsg, should_transfer := false, transfer_reason := ""
       frustration_score := s.frustration, claim_data := s.claim
       state := ConversationState.COMPLETE, is_complete := true })
  else if is_negative lc then
    let s2 := { addHistory s
                  "ASSISTANT: Caller requested changes; returning to information collection." with
                state := ConversationState.GATHERING_INCIDENT_DETAILS }
    (s2,
     { response := changeMsg, should_transfer := false, transfer_reason := ""
       frustration_score := s.frustration, claim_data := s.claim
       state := ConversationState.GATHERING_INCIDENT_DETAILS, is_complete := false })
  else
    (s,
     { response := reconfirmMsg, should_transfer := false, transfer_reason := ""
       frustration_score := s.frustration, claim_data := s.claim
       state := s.state, is_complete := false })

/-- The `except` handler (lines 251-261): fixed apology, transfer with
reason `technical_error`, session returned as it stands. -/
def failTurn (s : Session) : Session × NLUOutput :=
  (s,
   { response := apologyMsg, should_transfer := true, transfer_reason := "technical_error"
     frustration_score := s.frustration, claim_data := s.claim
     state := s.state, is_complete := false })

/-- Emergency branch (lines 179-189); runs on `s2`, whose state was
already set from the payload. -/
def emergencyTurn (s2 : Session) (r : LLMResult) : Session × NLUOutput :=
  let s3 := { s2 with state := ConversationState.EMERGENCY_TRANSFER }
  (s3,
   { response := emergencyMsg, should_transfer := true
     transfer_reason := r.emergency_reason
     frustration_score := s2.frustration, claim_data := s2.claim
     state := ConversationState.EMERGENCY_TRANSFER, is_complete := false })

/-- High-frustration branch (lines 191-202). -/
def frustrationTurn (s2 : Session) : Session × NLUOutput :=
  let s3 := { s2 with state := ConversationState.EMERGENCY_TRANSFER }
  (s3,
   { response := frustrationMsg, should_transfer := true
     transfer_reason := "high_frustration_" ++ ratStr s2.frustration
     frustration_score := s2.frustration, claim_data := s2.claim
     state := ConversationState.EMERGENCY_TRANSFER, is_complete := false })

/-- Natural-language summary built in the completion branch
(lines 210-223): only truthy fields, in source order. -/
def summaryParts (cd : ClaimData) : List String :=
  (if truthy cd.policyId then ["policy number " ++ jvalStr cd.policyId] else [])
    ++ (if truthy cd.customerName then ["under the name " ++ jvalStr cd.customerName] else [])
    ++ (if truthy cd.incidentType then ["for a " ++ jvalStr cd.incidentType] else [])
    ++ (if truthy cd.location then ["at " ++ jvalStr cd.location] else [])
    ++ (if truthy cd.incidentDate then ["on " ++ jvalStr cd.incidentDate] else [])

/-- Completion branch (lines 204-236): move to `TO_REVIEW` and ask the
caller to confirm the summary. -/
def toReviewTurn (s2 : Session) : Session × NLUOutput :=
  let ct := "Let me confirm: I have " ++ String.intercalate ", " (summaryParts s2.claim)
              ++ ". Is this correct?"
  let s3 := { addHistory s2 ("ASSISTANT: " ++ ct) with
              state := ConversationState.TO_REVIEW }
  (s3,
   { response := ct, should_transfer := false, transfer_reason := ""
     frustration_score := s2.frustration, claim_data := s2.claim
     state := ConversationState.TO_REVIEW, is_complete := false })

/-- Final normalized return (lines 238-249). -/
def normalTurn (s2 : Session) (r : LLMResult) : Session × NLUOutput :=
  (s2,
   { response := r.response, should_transfer := false, transfer_reason := ""
     frustration_score := s2.frustration, claim_data := s2.claim
     state := s2.state
     is_complete := check_claim_completion s2.claim
                      || decide (s2.state = ConversationState.COMPLETE) })

/-- Successful service round trip (lines 155-249): store the frustration
score, merge the claim fields, then look up the suggested state by
member name — an unrecognized name raises `KeyError` into the blanket
`except`, with the score and claim writes already done. -/
def successTurn (s : Session) (r : LLMResult) : Session × NLUOutput :=
  let fs := r.frustration_score
  let claim2 := r.claim_data.foldl (mergeEntry fs) s.claim
  match stateOfName r.conversation_state with
  | none => failTurn { s with frustration := fs, claim := claim2 }
  | some st =>
    let s2 := addHistory { s with frustration := fs, claim := claim2, state := st }
                ("ASSISTANT: " ++ r.response)
    if r.emergency_detected then emergencyTurn s2 r
    else if 5 < fs then frustrationTurn s2
    else if check_claim_completion claim2
              && !(decide (st = ConversationState.TO_REVIEW))
              && !(decide (st = ConversationState.COMPLETE)) then toReviewTurn s2
    else normalTurn s2 r

/-- `ConversationalNLU.process_input`: append the caller line, take the
local `to_review` fast path when in that state, otherwise dispatch on
the outcome of the single service call. -/
def process_input (s : Session) (t : String) (o : ServiceOutcome) :
    Session × NLUOutput :=
  let s1 := addHistory s ("CALLER: " ++ t)
  if s1.state = ConversationState.TO_REVIEW then
    reviewTurn s1 (pyLowerStrip t)
  else
    match o with
    | ServiceOutcome.failure => failTurn s1
    | ServiceOutcome.success r => successTurn s1 r

/-- `handle_speech_callback` in `pipeline.py` (lines 127-137): the call
loop keeps running only when the turn neither requests a transfer nor
reports completion. -/
def callActiveAfter (out : NLUOutput) : Bool :=
  !(out.should_transfer || out.is_complete)

/-- Session after the score and claim-data writes of a successful round
trip (lines 161-170), before the state-name lookup. -/
def absorbResult (s : Session) (r : LLMResult) : Session :=
  { s with
    frustration := r.frustration_score
    claim := r.claim_data.foldl (mergeEntry r.frustration_score) s.claim }

/-- Session after the state write (line 173) and the assistant-history
append (line 176). -/
def absorbWithState (s : Session) (r : LLMResult) (st : ConversationState) :
    Session :=
  addHistory { absorbResult s r with state := st } ("ASSISTANT: " ++ r.response)

/-! ## Playback-flag model (`text_to_speech.py`) -/

/-- Steps executed by the spawned playback task (`play_audio`). -/
inductive PlayStep where
  | grabLock
  | setPlaying (b : Bool)
  | dropLock
  | sdPlay
  | sdWait
deriving DecidableEq, Repr

/-- The shared module state: the `_audio_playing` flag and whether
`_audio_lock` is held. -/
structure TTSState where
  playing : Bool
  lockHeld : Bool
deriving DecidableEq, Repr

/-- Effect of one step on the shared state; playback itself never
touches the flag. -/
def stepFlag (st : TTSState) : PlayStep → TTSState
  | PlayStep.grabLock => { st with lockHeld := true }
  | PlayStep.setPlaying b => { st with playing := b }
  | PlayStep.dropLock => { st with lockHeld := false }
  | PlayStep.sdPlay => st
  | PlayStep.sdWait => st

def runSteps (st : TTSState) (l : List PlayStep) : TTSState :=
  l.foldl stepFlag st

/-- `with _audio_lock: _audio_playing = True` — runs before playback
starts (lines 64-65). -/
def flagOnSteps : List PlayStep :=
  [PlayStep.grabLock, PlayStep.setPlaying true, PlayStep.dropLock]

/-- The `try` body: `sd.play(..., blocking=True)` then `sd.wait()`;
when `sd.play` raises, `sd.wait` is skipped (lines 66-68). -/
def tryBodySteps (playRaises : Bool) : List PlayStep :=
  if playRaises then [PlayStep.sdPlay]
  else [PlayStep.sdPlay, PlayStep.sdWait]

/-- `finally: with _audio_lock: _audio_playing = False` — runs on every
exit path (lines 69-71). -/
def finallySteps : List PlayStep :=
  [PlayStep.grabLock, PlayStep.setPlaying false, PlayStep.dropLock]

/-- The whole body of `play_audio`, with `try/finally` semantics: the
finally block runs whether or not playback raised. -/
def play_audio (playRaises : Bool) : List PlayStep :=
  flagOnSteps ++ tryBodySteps playRaises ++ finallySteps

/-- `is_audio_playing`: the lock-guarded read of the flag, modelled
atomically. -/
def is_audio_playing (st : TTSState) : Bool :=
  st.playing

/-- Checks that every `setPlaying` write in a trace happens while the
lock is held. -/
def writesLocked : TTSState → List PlayStep → Bool
  | _, [] => true
  | st, step :: rest =>
      (match step with
        | PlayStep.setPlaying _ => st.lockHeld
        | _ => true)
        && writesLocked (stepFlag st step) rest

/-! ## Concrete fixtures used by witnesses and counterexamples -/

/-- Fresh session as built by `__init__`. -/
def sGreet : Session :=
  { state := ConversationState.GREETING, claim := emptyClaim, frustration := 0
    history := [] }

/-- Session sitting in the review/confirmation state. -/
def sReview : Session :=
  { sGreet with state := ConversationState.TO_REVIEW }

/-- Session sitting in the terminal `COMPLETE` state. -/
def sComplete : Session :=
  { sGreet with state := ConversationState.COMPLETE }

/-- A benign payload used where some concrete successful result is needed. -/
def rPlain : LLMResult :=
  { response := "Could you give me your policy number?", emergency_detected := false
    emergency_reason := "", frustration_score := 0, claim_data := []
    conversation_state := "GATHERING_POLICY_INFO" }

/-- Payload overwriting a populated name with the string `"unknown"`. -/
def rUnknownName : LLMResult :=
  { rPlain with claim_data := [("customerName", jstr "unknown")] }

/-- Payload offering `null` for an already-populated name. -/
def rNullName : LLMResult :=
  { rPlain with claim_data := [("customerName", jnull)] }

/-- Session whose customer name is already populated. -/
def sWithName : Session :=
  { sGreet with claim := { emptyClaim with customerName := jstr "Jane Doe" } }

/-- Emergency payload whose suggested state name is not a member name. -/
def rBadStateEmergency : LLMResult :=
  { rPlain with
    emergency_detected := true
    emergency_reason := "injury"
    conversation_state := "NOT_A_STATE" }

/-- Calm emergency payload with a recognized state name. -/
def rEmergencyCalm : LLMResult :=
  { rPlain with
    emergency_detected := true
    emergency_reason := "injury"
    conversation_state := "GREETING" }

/-- Non-emergency payload with an unrecognized state name. -/
def rBadState : LLMResult :=
  { rPlain with response := "Got it", conversation_state := "WAITING" }

/-- Payload carrying an out-of-range frustration score. -/
def rBigFrustration : LLMResult :=
  { rPlain with frustration_score := 15 }

/-- Payload steering the dialogue back to `GREETING`. -/
def rMove : LLMResult :=
  { rPlain with response := "hi", conversation_state := "GREETING" }

/-! ## Helper lemmas -/

theorem getF_setF (f g : ClaimField) (v : JVal) (cd : ClaimData) :
    getF f (setF g v cd) = if f = g then v else getF f cd := by
  cases f <;> cases g <;> simp [getF, setF]

theorem descTag_length (fs : ℚ) (v : JVal) : 25 ≤ (descTag fs v).length := by
  have h1 : ("[Frustration Score: ").length = 20 := rfl
  have h2 : ("/10] ").length = 5 := rfl
  rw [descTag, String.length_append, String.length_append, String.length_append,
    h1, h2]
  omega

theorem nonNullTruthy_descTag (fs : ℚ) (v : JVal) :
    nonNullTruthy (jstr (descTag fs v)) = true := by
  have h := descTag_length fs v
  have hne : descTag fs v ≠ "" := by
    intro he; rw [he] at h; exact absurd h (by decide)
  have hnn : descTag fs v ≠ "null" := by
    intro he; rw [he] at h; exact absurd h (by decide)
  simp [nonNullTruthy, truthy, hne, hnn]

theorem getF_mergeEntry (fs : ℚ) (cd : ClaimData) (kv : String × JVal)
    (f : ClaimField) :
    getF f (mergeEntry fs cd kv) = getF f cd
      ∨ nonNullTruthy (getF f (mergeEntry fs cd kv)) = true := by
  rw [mergeEntry]
  split
  · exact Or.inl rfl
  · rename_i g _
    split
    · rename_i hnt
      split
      · rw [getF_setF]
        by_cases hfg : f = g
        · rw [if_pos hfg]; exact Or.inr (nonNullTruthy_descTag fs kv.2)
        · rw [if_neg hfg]; exact Or.inl rfl
      · rw [getF_setF]
        by_cases hfg : f = g
        · rw [if_pos hfg]; exact Or.inr hnt
        · rw [if_neg hfg]; exact Or.inl rfl
    · exact Or.inl rfl

theorem getF_foldl_merge (fs : ℚ) (l : List (String × JVal)) (cd : ClaimData)
    (f : ClaimField) :
    getF f (l.foldl (mergeEntry fs) cd) = getF f cd
      ∨ nonNullTruthy (getF f (l.foldl (mergeEntry fs) cd)) = true := by
  induction l generalizing cd with
  | nil => left; rfl
  | cons kv rest ih =>
    rw [List.foldl_cons]
    rcases ih (mergeEntry fs cd kv) with h | h
    · rw [h]; exact getF_mergeEntry fs cd kv f
    · right; exact h

@[simp] theorem addHistory_state (s : Session) (l : String) :
    (addHistory s l).state = s.state := rfl

@[simp] theorem addHistory_claim (s : Session) (l : String) :
    (addHistory s l).claim = s.claim := rfl

@[simp] theorem addHistory_frustration (s : Session) (l : String) :
    (addHistory s l).frustration = s.frustration := rfl

theorem process_input_review (s : Session) (t : String) (o : ServiceOutcome)
    (h : s.state = ConversationState.TO_REVIEW) :
    process_input s t o =
      reviewTurn (addHistory s ("CALLER: " ++ t)) (pyLowerStrip t) := by
  simp only [process_input, addHistory_state, h, if_true]

theorem process_input_failure (s : Session) (t : String)
    (h : s.state ≠ ConversationState.TO_REVIEW) :
    process_input s t ServiceOutcome.failure =
      failTurn (addHistory s ("CALLER: " ++ t)) := by
  simp only [process_input, addHistory_state]
  rw [if_neg h]

theorem process_input_success (s : Session) (t : String) (r : LLMResult)
    (h : s.state ≠ ConversationState.TO_REVIEW) :
    process_input s t (ServiceOutcome.success r) =
      successTurn (addHistory s ("CALLER: " ++ t)) r := by
  simp only [process_input, addHistory_state]
  rw [if_neg h]

theorem successTurn_invalid (s : Session) (r : LLMResult)
    (h : stateOfName r.conversation_state = none) :
    successTurn s r = failTurn (absorbResult s r) := by
  simp only [successTurn, h]
  rfl

theorem successTurn_valid_emergency (s : Session) (r : LLMResult)
    (st : ConversationState)
    (h : stateOfName r.conversation_state = some st)
    (he : r.emergency_detected = true) :
    successTurn s r = emergencyTurn (absorbWithState s r st) r := by
  simp only [successTurn, h, he, if_true]
  rfl

theorem successTurn_valid_frustrated (s : Session) (r : LLMResult)
    (st : ConversationState)
    (h : stateOfName r.conversation_state = some st)
    (he : r.emergency_detected = false)
    (hf : 5 < r.frustration_score) :
    successTurn s r = frustrationTurn (absorbWithState s r st) := by
  simp only [successTurn, h, he, Bool.false_eq_true, if_false, hf, if_true]
  rfl

theorem successTurn_valid_calm_review (s : Session) (r : LLMResult)
    (st : ConversationState)
    (h : stateOfName r.conversation_state = some st)
    (he : r.emergency_detected = false)
    (hf : ¬ 5 < r.frustration_score)
    (hc : (check_claim_completion
            (r.claim_data.foldl (mergeEntry r.frustration_score) s.claim)
          && !(decide (st = ConversationState.TO_REVIEW))
          && !(decide (st = ConversationState.COMPLETE))) = true) :
    successTurn s r = toReviewTurn (absorbWithState s r st) := by
  simp only [successTurn, h, he, Bool.false_eq_true, if_false, hf, hc, if_true]
  rfl

theorem successTurn_valid_calm_normal (s : Session) (r : LLMResult)
    (st : ConversationState)
    (h : stateOfName r.conversation_state = some st)
    (he : r.emergency_detected = false)
    (hf : ¬ 5 < r.frustration_score)
    (hc : (check_claim_completion
            (r.claim_data.foldl (mergeEntry r.frustration_score) s.claim)
          && !(decide (st = ConversationState.TO_REVIEW))
          && !(decide (st = ConversationState.COMPLETE))) = false) :
    successTurn s r = normalTurn (absorbWithState s r st) r := by
  simp only [successTurn, h, he, Bool.false_eq_true, if_false, hf, hc]
  rfl

theorem nonNullTruthy_spec (v : JVal) (h : nonNullTruthy v = true) :
    truthy v = true ∧ v ≠ jstr "null" := by
  simp [nonNullTruthy] at h
  exact h

theorem reviewTurn_claim (s : Session) (lc : String) :
    (reviewTurn s lc).1.claim = s.claim := by
  rw [reviewTurn]
  split
  · rfl
  · split <;> rfl

theorem successTurn_claim (s : Session) (r : LLMResult) :
    (successTurn s r).1.claim =
      r.claim_data.foldl (mergeEntry r.frustration_score) s.claim := by
  simp only [successTurn]
  split
  · rfl
  · split
    · rfl
    · split
      · rfl
      · split <;> rfl

theorem process_input_claim_mono (s : Session) (t : String) (o : ServiceOutcome)
    (f : ClaimField) :
    getF f (process_input s t o).1.claim = getF f s.claim
      ∨ nonNullTruthy (getF f (process_input s t o).1.claim) = true := by
  by_cases h : s.state = ConversationState.TO_REVIEW
  · rw [process_input_review s t o h, reviewTurn_claim]
    exact Or.inl rfl
  · cases o with
    | failure => rw [process_input_failure s t h]; exact Or.inl rfl
    | success r =>
      rw [process_input_success s t r h, successTurn_claim]
      exact getF_foldl_merge r.frustration_score r.claim_data
        (addHistory s ("CALLER: " ++ t)).claim f

/-- Claim C1, counterexample: the merge guard tests only truthiness and
the literal string "null"; the string "unknown" is a non-empty value, so
a populated customerName ("Jane Doe") is overwritten by "unknown". -/
theorem populated_overwritten_by_unknown_cex :
    truthy (getF ClaimField.customerName sWithName.claim) = true
    ∧ (process_input sWithName "hello"
        (ServiceOutcome.success rUnknownName)).1.claim.customerName
        = jstr "unknown" := by
  constructor
  · rfl
  · decide

/-- Claim C1 (amended): across any turn, a populated (truthy) claim
field stays populated, and a field changes only to a value that is
truthy and distinct from the sentinel string "null"; the sentinel the
code guards against is "null", not "unknown". -/
theorem populated_never_cleared (s : Session) (t : String) (o : ServiceOutcome)
    (f : ClaimField) :
    (truthy (getF f s.claim) = true →
        truthy (getF f (process_input s t o).1.claim) = true)
    ∧ (getF f (process_input s t o).1.claim ≠ getF f s.claim →
        truthy (getF f (process_input s t o).1.claim) = true
        ∧ getF f (process_input s t o).1.claim ≠ jstr "null") := by
  rcases process_input_claim_mono s t o f with h | h
  · exact ⟨fun hp => h ▸ hp, fun hne => absurd h hne⟩
  · have hs := nonNullTruthy_spec _ h
    exact ⟨fun _ => hs.1, fun _ => hs⟩

/-- Claim C1, witness: a populated name survives a turn whose payload
offers `null` for it. -/
theorem populated_never_cleared_witness :
    truthy (getF ClaimField.customerName
      (process_input sWithName "hi"
        (ServiceOutcome.success rNullName)).1.claim) = true :=
  (populated_never_cleared sWithName "hi" (ServiceOutcome.success rNullName)
    ClaimField.customerName).1 (by decide)

/-- Claim C2: the completion check is true exactly when the five
required fields are truthy and not the string "null", and the two
optional fields never influence it. -/
theorem completion_iff_required (cd : ClaimData) :
    (check_claim_completion cd = true ↔
      ((truthy cd.policyId = true ∧ cd.policyId ≠ jstr "null")
        ∧ (truthy cd.customerName = true ∧ cd.customerName ≠ jstr "null")
        ∧ (truthy cd.incidentType = true ∧ cd.incidentType ≠ jstr "null")
        ∧ (truthy cd.description = true ∧ cd.description ≠ jstr "null")
        ∧ (truthy cd.location = true ∧ cd.location ≠ jstr "null")))
    ∧ (∀ v w : JVal,
        check_claim_completion { cd with estimatedDamage := v, incidentDate := w }
          = check_claim_completion cd) := by
  constructor
  · simp [check_claim_completion, nonNullTruthy, and_assoc]
  · intro v w
    rfl

/-- Claim C3: in the review state the turn is handled locally — the
result does not depend on the service outcome; an affirmative utterance
completes the claim with the fixed confirmation message, a purely
negative one returns to incident gathering, anything else re-asks and
stays in review. -/
theorem review_fast_path (s : Session) (t : String) (o o2 : ServiceOutcome)
    (h : s.state = ConversationState.TO_REVIEW) :
    process_input s t o = process_input s t o2
    ∧ (is_affirmative (pyLowerStrip t) = true →
        (process_input s t o).1.state = ConversationState.COMPLETE
        ∧ (process_input s t o).2.is_complete = true
        ∧ (process_input s t o).2.response = confirmDoneMsg
        ∧ (process_input s t o).2.should_transfer = false)
    ∧ (is_affirmative (pyLowerStrip t) = false →
        is_negative (pyLowerStrip t) = true →
        (process_input s t o).1.state = ConversationState.GATHERING_INCIDENT_DETAILS
        ∧ (process_input s t o).2.response = changeMsg
        ∧ (process_input s t o).2.should_transfer = false)
    ∧ (is_affirmative (pyLowerStrip t) = false →
        is_negative (pyLowerStrip t) = false →
        (process_input s t o).1.state = ConversationState.TO_REVIEW
        ∧ (process_input s t o).2.response = reconfirmMsg
        ∧ (process_input s t o).2.should_transfer = false) := by
  rw [process_input_review s t o h, process_input_review s t o2 h]
  refine ⟨rfl, ?_, ?_, ?_⟩
  · intro ha
    rw [reviewTurn, if_pos ha]
    exact ⟨rfl, rfl, rfl, rfl⟩
  · intro ha hn
    rw [reviewTurn, if_neg (by simp [ha]), if_pos hn]
    exact ⟨rfl, rfl, rfl⟩
  · intro ha hn
    rw [reviewTurn, if_neg (by simp [ha]), if_neg (by simp [hn])]
    exact ⟨by simpa using h, rfl, rfl⟩

/-- Claim C3, witness: with the caller saying "yes" in review, the
result is independent of the service outcome and the claim completes. -/
theorem review_fast_path_witness :
    process_input sReview "yes" ServiceOutcome.failure
        = process_input sReview "yes" (ServiceOutcome.success rPlain)
    ∧ (process_input sReview "yes" ServiceOutcome.failure).1.state
        = ConversationState.COMPLETE
    ∧ (process_input sReview "yes" ServiceOutcome.failure).2.is_complete = true :=
  have h := review_fast_path sReview "yes" ServiceOutcome.failure
    (ServiceOutcome.success rPlain) rfl
  ⟨h.1, (h.2.1 (by decide)).1, (h.2.1 (by decide)).2.1⟩

/-- Claim C4, counterexample: an emergency payload whose suggested
state name is unrecognized never reaches the emergency branch — the
`KeyError` on the state lookup lands in the generic handler, the state
stays GREETING and the reason is "technical_error", not the supplied
one. -/
theorem emergency_unknown_state_cex :
    rBadStateEmergency.emergency_detected = true
    ∧ (process_input sGreet "help"
        (ServiceOutcome.success rBadStateEmergency)).1.state
        = ConversationState.GREETING
    ∧ (process_input sGreet "help"
        (ServiceOutcome.success rBadStateEmergency)).2.transfer_reason
        = "technical_error" := by
  refine ⟨rfl, by decide, by decide⟩

/-- Claim C4 (amended): for every emergency-flagged payload whose
suggested state name is recognized, processed outside the review state,
the turn ends in EMERGENCY_TRANSFER with should_transfer=true and the
supplied reason, whatever the frustration score, claim completeness or
the suggested state. -/
theorem emergency_overrides (s : Session) (t : String) (r : LLMResult)
    (st : ConversationState)
    (h1 : s.state ≠ ConversationState.TO_REVIEW)
    (h2 : stateOfName r.conversation_state = some st)
    (h3 : r.emergency_detected = true) :
    (process_input s t (ServiceOutcome.success r)).1.state
        = ConversationState.EMERGENCY_TRANSFER
    ∧ (process_input s t (ServiceOutcome.success r)).2.should_transfer = true
    ∧ (process_input s t (ServiceOutcome.success r)).2.transfer_reason
        = r.emergency_reason
    ∧ (process_input s t (ServiceOutcome.success r)).2.response = emergencyMsg := by
  rw [process_input_success s t r h1, successTurn_valid_emergency _ r st h2 h3]
  exact ⟨rfl, rfl, rfl, rfl⟩

/-- Claim C4, witness: a recognized-state emergency payload in GREETING
transfers with the supplied reason. -/
theorem emergency_overrides_witness :
    (process_input sGreet "help" (ServiceOutcome.success rEmergencyCalm)).1.state
        = ConversationState.EMERGENCY_TRANSFER
    ∧ (process_input sGreet "help"
        (ServiceOutcome.success rEmergencyCalm)).2.transfer_reason = "injury" :=
  have h := emergency_overrides sGreet "help" rEmergencyCalm
    ConversationState.GREETING (by decide) rfl rfl
  ⟨h.1, h.2.2.1⟩

/-- Claim C5: on a failed service call — and equally on the KeyError an
unrecognized state name raises while handling a response — the turn
returns the fixed apology with should_transfer=true and reason
"technical_error", the dialogue state is unchanged, and the pipeline
stops the loop without retrying. -/
theorem service_failure_handling (s : Session) (t : String) (r : LLMResult)
    (h : s.state ≠ ConversationState.TO_REVIEW) :
    ((process_input s t ServiceOutcome.failure).2.response = apologyMsg
      ∧ (process_input s t ServiceOutcome.failure).2.should_transfer = true
      ∧ (process_input s t ServiceOutcome.failure).2.transfer_reason
          = "technical_error"
      ∧ (process_input s t ServiceOutcome.failure).1.state = s.state
      ∧ callActiveAfter (process_input s t ServiceOutcome.failure).2 = false)
    ∧ (stateOfName r.conversation_state = none →
        (process_input s t (ServiceOutcome.success r)).2.response = apologyMsg
        ∧ (process_input s t (ServiceOutcome.success r)).2.should_transfer = true
        ∧ (process_input s t (ServiceOutcome.success r)).2.transfer_reason
            = "technical_error"
        ∧ (process_input s t (ServiceOutcome.success r)).1.state = s.state
        ∧ callActiveAfter (process_input s t (ServiceOutcome.success r)).2
            = false) := by
  constructor
  · rw [process_input_failure s t h]
    exact ⟨rfl, rfl, rfl, rfl, rfl⟩
  · intro hn
    rw [process_input_success s t r h, successTurn_invalid _ r hn]
    exact ⟨rfl, rfl, rfl, rfl, rfl⟩

/-- Claim C5, witness: a timed-out call in GREETING yields the apology,
a technical_error transfer, and an unchanged state. -/
theorem service_failure_handling_witness :
    (process_input sGreet "my roof leaks" ServiceOutcome.failure).2.transfer_reason
        = "technical_error"
    ∧ (process_input sGreet "my roof leaks" ServiceOutcome.failure).1.state
        = sGreet.state :=
  have h := service_failure_handling sGreet "my roof leaks" rBadState (by decide)
  ⟨h.1.2.2.1, h.1.2.2.2.1⟩

/-- Claim C6, counterexample: an unrecognized next-state name does not
complete the turn normally — the response is not the payload response
and the turn requests a transfer. -/
theorem unknown_state_cex :
    stateOfName rBadState.conversation_state = none
    ∧ (process_input sGreet "hello"
        (ServiceOutcome.success rBadState)).2.should_transfer = true
    ∧ (process_input sGreet "hello"
        (ServiceOutcome.success rBadState)).2.response ≠ rBadState.response := by
  refine ⟨rfl, by decide, by decide⟩

/-- Claim C6 (amended): an unrecognized next-state name never escapes
process_input and the dialogue state is kept, but the turn is treated as
a technical error: the generic handler returns the apology with
should_transfer=true and reason "technical_error" (keeping the score and
claim updates already made from the payload). -/
theorem unknown_state_fallback (s : Session) (t : String) (r : LLMResult)
    (h1 : s.state ≠ ConversationState.TO_REVIEW)
    (h2 : stateOfName r.conversation_state = none) :
    (process_input s t (ServiceOutcome.success r)).1.state = s.state
    ∧ (process_input s t (ServiceOutcome.success r)).1.frustration
        = r.frustration_score
    ∧ (process_input s t (ServiceOutcome.success r)).2.response = apologyMsg
    ∧ (process_input s t (ServiceOutcome.success r)).2.should_transfer = true
    ∧ (process_input s t (ServiceOutcome.success r)).2.transfer_reason
        = "technical_error" := by
  rw [process_input_success s t r h1, successTurn_invalid _ r h2]
  exact ⟨rfl, rfl, rfl, rfl, rfl⟩

/-- Claim C6, witness: a payload naming the state "WAITING" keeps the
GREETING state and reports a technical_error transfer. -/
theorem unknown_state_fallback_witness :
    (process_input sGreet "hello" (ServiceOutcome.success rBadState)).1.state
        = ConversationState.GREETING
    ∧ (process_input sGreet "hello"
        (ServiceOutcome.success rBadState)).2.transfer_reason
        = "technical_error" :=
  have h := unknown_state_fallback sGreet "hello" rBadState (by decide) rfl
  ⟨h.1, h.2.2.2.2⟩

/-- Claim C7, failing evaluation: the code never clamps the score — a
payload carrying 15 is stored and returned as 15, outside [0,10]. -/
theorem frustration_not_clamped_eval :
    (process_input sGreet "this is fine"
        (ServiceOutcome.success rBigFrustration)).2.frustration_score = 15
    ∧ (process_input sGreet "this is fine"
        (ServiceOutcome.success rBigFrustration)).1.frustration = 15
    ∧ ¬ (process_input sGreet "this is fine"
        (ServiceOutcome.success rBigFrustration)).2.frustration_score ≤ 10 := by
  refine ⟨by decide, by decide, by decide⟩

/-- Claim C8, counterexample: the emergency branch also sets
should_transfer=true, at a frustration score of 0 — so transfer is not
equivalent to exceeding the threshold. -/
theorem transfer_iff_frustration_cex :
    (process_input sGreet "help"
        (ServiceOutcome.success rEmergencyCalm)).2.should_transfer = true
    ∧ (process_input sGreet "help"
        (ServiceOutcome.success rEmergencyCalm)).2.frustration_score ≤ 5 := by
  exact ⟨by decide, by decide⟩

/-- Claim C8 (amended): restricted to successful non-emergency turns
with a recognized next-state name, outside review: should_transfer=true
holds exactly when the payload score exceeds 5.0, and then the state
becomes EMERGENCY_TRANSFER with a reason encoding the score; transfer
can additionally be requested by the emergency and failure paths. -/
theorem frustration_transfer_iff (s : Session) (t : String) (r : LLMResult)
    (st : ConversationState)
    (h1 : s.state ≠ ConversationState.TO_REVIEW)
    (h2 : stateOfName r.conversation_state = some st)
    (h3 : r.emergency_detected = false) :
    ((process_input s t (ServiceOutcome.success r)).2.should_transfer = true
        ↔ 5 < r.frustration_score)
    ∧ (5 < r.frustration_score →
        (process_input s t (ServiceOutcome.success r)).1.state
            = ConversationState.EMERGENCY_TRANSFER
        ∧ (process_input s t (ServiceOutcome.success r)).2.transfer_reason
            = "high_frustration_" ++ ratStr r.frustration_score) := by
  by_cases hf : 5 < r.frustration_score
  · rw [process_input_success s t r h1,
      successTurn_valid_frustrated _ r st h2 h3 hf]
    exact ⟨⟨fun _ => hf, fun _ => rfl⟩, fun _ => ⟨rfl, rfl⟩⟩
  · rw [process_input_success s t r h1]
    cases hb : (check_claim_completion
          (r.claim_data.foldl (mergeEntry r.frustration_score)
            (addHistory s ("CALLER: " ++ t)).claim)
        && !(decide (st = ConversationState.TO_REVIEW))
        && !(decide (st = ConversationState.COMPLETE))) with
    | true =>
      rw [successTurn_valid_calm_review _ r st h2 h3 hf hb]
      exact ⟨⟨fun hx => absurd hx (by simp [toReviewTurn]),
        fun hx => absurd hx hf⟩, fun hx => absurd hx hf⟩
    | false =>
      rw [successTurn_valid_calm_normal _ r st h2 h3 hf hb]
      exact ⟨⟨fun hx => absurd hx (by simp [normalTurn]),
        fun hx => absurd hx hf⟩, fun hx => absurd hx hf⟩

/-- Claim C8, witness: a score of 15 (no emergency) transfers with the
score-encoding reason. -/
theorem frustration_transfer_iff_witness :
    (process_input sGreet "hi"
        (ServiceOutcome.success rBigFrustration)).2.should_transfer = true
    ∧ (process_input sGreet "hi"
        (ServiceOutcome.success rBigFrustration)).2.transfer_reason
        = "high_frustration_15" :=
  have h := frustration_transfer_iff sGreet "hi" rBigFrustration
    ConversationState.GATHERING_POLICY_INFO (by decide) rfl rfl
  ⟨h.1.mpr (by decide), (h.2 (by decide)).2⟩

/-- Claim C9, counterexample: COMPLETE is not absorbing — a further
call whose payload names GREETING moves the dialogue out of it. -/
theorem terminal_not_absorbing_cex :
    sComplete.state = ConversationState.COMPLETE
    ∧ (process_input sComplete "hello again"
        (ServiceOutcome.success rMove)).1.state = ConversationState.GREETING := by
  exact ⟨rfl, by decide⟩

/-- Claim C9 (amended): process_input itself does not guard the
terminal states; what holds is that every turn ending with dialogue
state COMPLETE reports should_transfer or is_complete, so the pipeline
stops the loop and never calls process_input again in that state. -/
theorem complete_turn_stops_loop (s : Session) (t : String) (o : ServiceOutcome)
    (h : (process_input s t o).1.state = ConversationState.COMPLETE) :
    callActiveAfter (process_input s t o).2 = false := by
  by_cases hrev : s.state = ConversationState.TO_REVIEW
  · rw [process_input_review s t o hrev] at h ⊢
    rw [reviewTurn] at h ⊢
    by_cases ha : is_affirmative (pyLowerStrip t) = true
    · rw [if_pos ha]
      rfl
    · rw [if_neg (by simp [Bool.not_eq_true] at ha ⊢; exact ha)] at h ⊢
      by_cases hn : is_negative (pyLowerStrip t) = true
      · rw [if_pos hn] at h
        simp at h
      · rw [if_neg (by simp [Bool.not_eq_true] at hn ⊢; exact hn)] at h
        simp only [addHistory_state] at h
        rw [hrev] at h
        simp at h
  · cases o with
    | failure =>
      rw [process_input_failure s t hrev]
      rfl
    | success r =>
      rw [process_input_success s t r hrev] at h ⊢
      cases hs : stateOfName r.conversation_state with
      | none =>
        rw [successTurn_invalid _ r hs]
        rfl
      | some st =>
        by_cases hem : r.emergency_detected = true
        · rw [successTurn_valid_emergency _ r st hs hem]
          rfl
        · have hem2 : r.emergency_detected = false := by
            simpa [Bool.not_eq_true] using hem
          by_cases hfr : 5 < r.frustration_score
          · rw [successTurn_valid_frustrated _ r st hs hem2 hfr]
            rfl
          · cases hb : (check_claim_completion
                (r.claim_data.foldl (mergeEntry r.frustration_score)
                  (addHistory s ("CALLER: " ++ t)).claim)
              && !(decide (st = ConversationState.TO_REVIEW))
              && !(decide (st = ConversationState.COMPLETE))) with
            | true =>
              rw [successTurn_valid_calm_review _ r st hs hem2 hfr hb] at h
              simp [toReviewTurn] at h
            | false =>
              rw [successTurn_valid_calm_normal _ r st hs hem2 hfr hb] at h ⊢
              have hst : st = ConversationState.COMPLETE := h
              subst hst
              simp [callActiveAfter, normalTurn, absorbWithState, absorbResult,
                addHistory]

/-- Claim C9, witness: the affirmative review turn ends in COMPLETE and
the loop indeed stops. -/
theorem complete_turn_stops_loop_witness :
    callActiveAfter
      (process_input sReview "yes" ServiceOutcome.failure).2 = false :=
  complete_turn_stops_loop sReview "yes" ServiceOutcome.failure (by decide)

/-- Claim C10: whatever the initial flag value and whether or not
playback raises, the playback task sets the flag to true before playback
begins, the finally block clears it on every exit path, so
is_audio_playing is false after the run; and every flag write in the
trace happens while holding the lock. -/
theorem playback_flag_reset (f0 l0 : Bool) (playRaises : Bool) :
    (runSteps ⟨f0, l0⟩ flagOnSteps).playing = true
    ∧ is_audio_playing (runSteps ⟨f0, l0⟩ (play_audio playRaises)) = false
    ∧ writesLocked ⟨f0, false⟩ (play_audio playRaises) = true := by
  refine ⟨rfl, ?_, ?_⟩ <;> cases playRaises <;> rfl
